import Mathlib

/-!
Shallow embedding of the AMANDA constraint-evaluation engine
(`src/AMANDA.py`) and proofs about its three evaluators.

Modelling conventions:
* Python `int` fields become `Int` (touch coordinates, bounding boxes,
  speed limits), Python `float` fields become `ℚ` (speeds, distances,
  decelerations), optional fields become `Option _`.
* Directive strings are modelled as inductive values carrying exactly the
  data interpolated into the corresponding Python format string.
* `math.sqrt` appears only inside `analyze_physical_constraints`; the
  branch condition `distance < 1.5` is embedded as the equivalent
  comparison of squared quantities, and the prediction record carries the
  squared distance and squared speed from which the printed values derive.
* Where a property is decided by IEEE-754 double rounding rather than by
  the exact values — the legal evaluator's 95% band test at the exact
  boundary — the doubles the program computes are additionally modelled
  exactly as dyadic rationals, each certified as a round-to-nearest-even
  result (`IsDoubleRounding`).
-/

/-- A single interactive element, as in `ApplicationComponent`:
`component_id`, `bounding_box = (xmin, ymin, xmax, ymax)`,
`expected_event_type`. -/
structure ApplicationComponent where
  component_id : String
  bounding_box : Int × Int × Int × Int
  expected_event_type : String
deriving DecidableEq

/-- One entry of `raw_touch_data`: keys `x`, `y`, `event_fired`,
`component_id_detected` (absent key modelled as `none`). -/
structure Touch where
  x : Int
  y : Int
  event_fired : Bool
  component_id_detected : Option String
deriving DecidableEq

/-- Input record `DigitalConstraintData`. -/
structure DigitalConstraintData where
  screen_width : Int
  screen_height : Int
  app_components : List ApplicationComponent
  raw_touch_data : List Touch
deriving DecidableEq

/-- The diagnostics `analyze_digital_constraints` appends to
`analysis_report["directives"]`, with the data each format string
interpolates (touch numbers are 1-based as in `Touch #{i+1}`). -/
inductive DigitalDirective where
  | deadSpace (touchNo : Nat) (x y : Int)
  | boundaryMismatch (touchNo : Nat) (x y : Int) (matchedId detectedId : String)
  | noEventFired (touchNo : Nat) (matchedId expectedEventType : String)
deriving DecidableEq

/-- The digital `analysis_report` dictionary. -/
structure DigitalReport where
  total_touches : Nat
  valid_interaction : Nat
  boundary_mismatch : Nat
  no_event_fired_error : Nat
  out_of_bounds_touch : Nat
  directives : List DigitalDirective
deriving DecidableEq

/-- The containment test of the component-matching loop:
`if xmin <= x <= xmax and ymin <= y <= ymax` (inclusive on all four
edges). -/
def containsPoint (c : ApplicationComponent) (x y : Int) : Bool :=
  decide (c.bounding_box.1 ≤ x ∧ x ≤ c.bounding_box.2.2.1 ∧
    c.bounding_box.2.1 ≤ y ∧ y ≤ c.bounding_box.2.2.2)

/-- The `for component in data.app_components: ... break` loop: the first
component (in list order) whose bounding box contains the point. -/
def findTouchedComponent (comps : List ApplicationComponent) (x y : Int) :
    Option ApplicationComponent :=
  comps.find? (fun c => containsPoint c x y)

/-- The Python truthiness guard
`if component_id_detected and component_id_detected != touched_component.component_id`:
`None` and the empty string are falsy. -/
def mismatchFlag (detected : Option String) (matchedId : String) : Bool :=
  match detected with
  | none => false
  | some s => (s != "") && (s != matchedId)

/-- The body of the touch loop of `analyze_digital_constraints` for one
touch numbered `i` (1-based), updating the running report. -/
def stepTouch (i : Nat) (comps : List ApplicationComponent)
    (r : DigitalReport) (t : Touch) : DigitalReport :=
  match findTouchedComponent comps t.x t.y with
  | none =>
    { r with
      out_of_bounds_touch := r.out_of_bounds_touch + 1
      directives := r.directives ++ [.deadSpace i t.x t.y] }
  | some comp =>
    let r1 := { r with valid_interaction := r.valid_interaction + 1 }
    let r2 :=
      if mismatchFlag t.component_id_detected comp.component_id then
        { r1 with
          boundary_mismatch := r1.boundary_mismatch + 1
          directives := r1.directives ++
            [.boundaryMismatch i t.x t.y comp.component_id
              (t.component_id_detected.getD "")] }
      else r1
    if t.event_fired then r2
    else
      { r2 with
        no_event_fired_error := r2.no_event_fired_error + 1
        directives := r2.directives ++
          [.noEventFired i comp.component_id comp.expected_event_type] }

/-- The `for i, touch in enumerate(data.raw_touch_data)` loop (touch
numbers passed 1-based to match the `#{i+1}` text). -/
def digitalGo (comps : List ApplicationComponent) (i : Nat)
    (r : DigitalReport) : List Touch → DigitalReport
  | [] => r
  | t :: ts => digitalGo comps (i + 1) (stepTouch i comps r t) ts

/-- `AMANDA_Core.analyze_digital_constraints`. -/
def analyze_digital_constraints (data : DigitalConstraintData) : DigitalReport :=
  digitalGo data.app_components 1
    { total_touches := data.raw_touch_data.length
      valid_interaction := 0
      boundary_mismatch := 0
      no_event_fired_error := 0
      out_of_bounds_touch := 0
      directives := [] }
    data.raw_touch_data

/-- The three demo components of the example script (`Button_A`,
`Slider_Volume`, `Button_B`). -/
def demoComponents : List ApplicationComponent :=
  [⟨"Button_A", (50, 50, 250, 150), "onClick"⟩,
   ⟨"Slider_Volume", (350, 50, 450, 750), "onDrag"⟩,
   ⟨"Button_B", (50, 700, 250, 800), "onClick"⟩]

example :
    (analyze_digital_constraints
      ⟨500, 800, demoComponents,
        [⟨150, 100, true, some "Button_A"⟩,
         ⟨100, 100, false, some "Button_A"⟩,
         ⟨160, 110, true, some "Slider_Volume"⟩,
         ⟨300, 400, true, some "None"⟩,
         ⟨150, 750, true, some "Button_B"⟩]⟩).valid_interaction = 4 := by
  decide

example :
    (analyze_digital_constraints
      ⟨500, 800, demoComponents,
        [⟨150, 100, true, some "Button_A"⟩,
         ⟨100, 100, false, some "Button_A"⟩,
         ⟨160, 110, true, some "Slider_Volume"⟩,
         ⟨300, 400, true, some "None"⟩,
         ⟨150, 750, true, some "Button_B"⟩]⟩).boundary_mismatch = 1 := by
  decide

/-- Input record `PhysicalConstraintData`; `user_biometrics` and
`house_blueprint_data` are opaque to the evaluator and modelled as plain
association lists. -/
structure PhysicalConstraintData where
  user_biometrics : List (String × ℚ)
  user_position_m : ℚ × ℚ
  house_blueprint_data : List (String × ℚ × ℚ)
  door_coords_m : ℚ × ℚ
  user_velocity_mps : ℚ × ℚ
deriving DecidableEq

/-- The physical `prediction` string: either the default text or the
approach message, which interpolates the door coordinates, the distance
(square root of `dist2`) and the time to door (square root of
`dist2 / speed2`, infinite when `speed2 = 0`). -/
inductive PhysPrediction where
  | noInteraction
  | approaching (doorX doorY dist2 speed2 : ℚ)
deriving DecidableEq

/-- The physical `analysis_report`: prediction plus the optional
`directive_signal` payload `(device, action, message)`. -/
structure PhysicalReport where
  prediction : PhysPrediction
  directive_signal : Option (String × String × String)
deriving DecidableEq

/-- `DOOR_INTERACTION_RANGE_M = 1.5`. -/
def DOOR_INTERACTION_RANGE_M : ℚ := 3 / 2

/-- Square of `math.sqrt((dx - ux)**2 + (dy - uy)**2)`, the distance to
the door. -/
def distance_squared_to_door (data : PhysicalConstraintData) : ℚ :=
  (data.door_coords_m.1 - data.user_position_m.1) ^ 2 +
    (data.door_coords_m.2 - data.user_position_m.2) ^ 2

/-- `AMANDA_Core.analyze_physical_constraints`; the branch test
`distance_to_door < DOOR_INTERACTION_RANGE_M` is embedded as the
equivalent comparison of squares. -/
def analyze_physical_constraints (data : PhysicalConstraintData) :
    PhysicalReport :=
  let ux := data.user_position_m.1
  let uy := data.user_position_m.2
  let vx := data.user_velocity_mps.1
  let vy := data.user_velocity_mps.2
  let dx := data.door_coords_m.1
  let dy := data.door_coords_m.2
  let base : PhysicalReport :=
    { prediction := .noInteraction, directive_signal := none }
  if distance_squared_to_door data < DOOR_INTERACTION_RANGE_M ^ 2 then
    if vx * (dx - ux) + vy * (dy - uy) > 0 then
      { prediction :=
          .approaching dx dy (distance_squared_to_door data) (vx ^ 2 + vy ^ 2)
        directive_signal :=
          some ("Apple Watch", "Haptic/Audio Cue", "Reach out and open the door.") }
    else base
  else base

example :
    (analyze_physical_constraints
      ⟨[("hr", 75)], (5, 5), [("door", 7, 7)], (7, 7), (1, 1)⟩).directive_signal
      = none := by
  norm_num [analyze_physical_constraints, distance_squared_to_door,
    DOOR_INTERACTION_RANGE_M]

/-- One `BaseConstitutionalLaw` record. -/
structure BaseConstitutionalLaw where
  source_constitution : String
  law_description : String
  priority_level : Int
  speed_limit_mph : Option Int
  zone_type : Option String
deriving DecidableEq

/-- Input record `ConstitutionalConstraintData`; `geospatial_data` is
opaque to the evaluator and modelled as an association list. -/
structure ConstitutionalConstraintData where
  geospatial_data : List (String × String)
  applicable_laws : List BaseConstitutionalLaw
  vehicle_speed_data_mph : ℚ
  vehicle_proximity_to_zone_m : ℚ
  max_safe_decel_mps2 : ℚ
deriving DecidableEq

/-- The diagnostics of `analyze_constitutional_constraints` with the data
interpolated into each format string. -/
inductive LegalDirective where
  | noConstraint
  | exceedingLimit (limit : Int) (source : String)
  | slowDownNow (speed distToSlow : ℚ) (limit : Int) (proximity : ℚ)
deriving DecidableEq

/-- The legal `analysis_report`; `applied_law = none` stands for `"N/A"`
and `required_limit_mph = none` for the initial `float('inf')`, the two
placeholders the no-law path leaves in place. When a law is applied,
`applied_law` carries `(source_constitution, law_description)`. -/
structure LegalReport where
  current_speed_mph : ℚ
  applied_law : Option (String × String)
  required_limit_mph : Option Int
  is_currently_speeding : Bool
  warning_required : Bool
  directives : List LegalDirective
deriving DecidableEq

/-- `AMANDA_Core.MPH_TO_MPS = 0.44704`. -/
def MPH_TO_MPS : ℚ := 44704 / 100000

/-- One iteration of the `for law in data.applicable_laws` loop, carrying
`(most_restrictive_law, min_limit_mph)` (the initial
`min_limit_mph = float('inf')` is the `none` accumulator). -/
def selectStep (acc : Option (BaseConstitutionalLaw × Int))
    (law : BaseConstitutionalLaw) : Option (BaseConstitutionalLaw × Int) :=
  match law.speed_limit_mph with
  | none => acc
  | some l =>
    match acc with
    | none => some (law, l)
    | some (_, best) => if l < best then some (law, l) else acc

/-- The whole selection loop over the remaining laws. -/
def selectGo (acc : Option (BaseConstitutionalLaw × Int)) :
    List BaseConstitutionalLaw → Option (BaseConstitutionalLaw × Int)
  | [] => acc
  | law :: rest => selectGo (selectStep acc law) rest

/-- `most_restrictive_law` / `min_limit_mph` after the selection loop. -/
def selectMostRestrictive (laws : List BaseConstitutionalLaw) :
    Option (BaseConstitutionalLaw × Int) :=
  selectGo none laws

/-- `distance_to_slow_safely = (limit_mps**2 - current_speed_mps**2) / (2 * -decel_mps2)`. -/
def distance_to_slow_safely (limit_mps current_speed_mps decel_mps2 : ℚ) : ℚ :=
  (limit_mps ^ 2 - current_speed_mps ^ 2) / (2 * -decel_mps2)

/-- `AMANDA_Core.analyze_constitutional_constraints`. -/
def analyze_constitutional_constraints (data : ConstitutionalConstraintData) :
    LegalReport :=
  let current_speed_mps := data.vehicle_speed_data_mph * MPH_TO_MPS
  match selectMostRestrictive data.applicable_laws with
  | none =>
    { current_speed_mph := data.vehicle_speed_data_mph
      applied_law := none
      required_limit_mph := none
      is_currently_speeding := false
      warning_required := false
      directives := [.noConstraint] }
  | some (law, min_limit_mph) =>
    let limit_mps := (min_limit_mph : ℚ) * MPH_TO_MPS
    let base : LegalReport :=
      { current_speed_mph := data.vehicle_speed_data_mph
        applied_law := some (law.source_constitution, law.law_description)
        required_limit_mph := some min_limit_mph
        is_currently_speeding := false
        warning_required := false
        directives := [] }
    if data.vehicle_speed_data_mph > (min_limit_mph : ℚ) then
      { base with
        is_currently_speeding := true
        warning_required := true
        directives := [.exceedingLimit min_limit_mph law.source_constitution] }
    else if current_speed_mps > limit_mps * (95 / 100) then
      let d := distance_to_slow_safely limit_mps current_speed_mps
        data.max_safe_decel_mps2
      if d ≥ data.vehicle_proximity_to_zone_m then
        { base with
          warning_required := true
          directives := [.slowDownNow data.vehicle_speed_data_mph d
            min_limit_mph data.vehicle_proximity_to_zone_m] }
      else base
    else base

/-- The two demo laws of the example script. -/
def demoLaws : List BaseConstitutionalLaw :=
  [⟨"U.S. Constitution (via Federal Statute)",
    "Interstate Commerce Speed Regulation (Default)", 10, some 70,
    some "Highway Default"⟩,
   ⟨"Texas Constitution (via TX Transportation Code)",
    "Municipal Speed Zone Ordinance (School Zone)", 5, some 20,
    some "School Zone"⟩]

example :
    (analyze_constitutional_constraints
      ⟨[("zone_id", "TX-AUSTIN-SCHOOL-45")], demoLaws, 35, 100, 4⟩).is_currently_speeding
      = true := by
  decide

example :
    (analyze_constitutional_constraints
      ⟨[("zone_id", "TX-AUSTIN-SCHOOL-45")], demoLaws, 35, 100, 4⟩).required_limit_mph
      = some 20 := by
  decide

/-! ### Lemmas about the digital evaluator -/

lemma stepTouch_total_touches (i : Nat) (comps : List ApplicationComponent)
    (r : DigitalReport) (t : Touch) :
    (stepTouch i comps r t).total_touches = r.total_touches := by
  unfold stepTouch
  cases findTouchedComponent comps t.x t.y with
  | none => rfl
  | some comp =>
    dsimp only
    split_ifs <;> rfl

lemma stepTouch_partition (i : Nat) (comps : List ApplicationComponent)
    (r : DigitalReport) (t : Touch) :
    (stepTouch i comps r t).out_of_bounds_touch +
      (stepTouch i comps r t).valid_interaction =
      r.out_of_bounds_touch + r.valid_interaction + 1 := by
  unfold stepTouch
  cases findTouchedComponent comps t.x t.y with
  | none => simp; omega
  | some comp =>
    dsimp only
    split_ifs <;> simp <;> omega

lemma digitalGo_partition (ts : List Touch)
    (comps : List ApplicationComponent) :
    ∀ (i : Nat) (r : DigitalReport),
      (digitalGo comps i r ts).out_of_bounds_touch +
          (digitalGo comps i r ts).valid_interaction =
        r.out_of_bounds_touch + r.valid_interaction + ts.length ∧
      (digitalGo comps i r ts).total_touches = r.total_touches := by
  induction ts with
  | nil => intro i r; simp [digitalGo]
  | cons t ts ih =>
    intro i r
    have h1 := stepTouch_partition i comps r t
    have h2 := stepTouch_total_touches i comps r t
    have h3 := ih (i + 1) (stepTouch i comps r t)
    simp only [digitalGo, List.length_cons]
    omega

lemma analyze_digital_singleton (w h : Int)
    (comps : List ApplicationComponent) (t : Touch) :
    analyze_digital_constraints ⟨w, h, comps, [t]⟩ =
      stepTouch 1 comps
        { total_touches := 1, valid_interaction := 0, boundary_mismatch := 0
          no_event_fired_error := 0, out_of_bounds_touch := 0
          directives := [] } t := rfl

/-- C4: for every input to the digital evaluator, the report satisfies
`out_of_bounds_touch + valid_interaction = total_touches`, and
`total_touches` is the length of the touch sequence. -/
theorem amanda_C4_touch_partition (data : DigitalConstraintData) :
    (analyze_digital_constraints data).out_of_bounds_touch +
        (analyze_digital_constraints data).valid_interaction =
      (analyze_digital_constraints data).total_touches ∧
    (analyze_digital_constraints data).total_touches =
      data.raw_touch_data.length := by
  unfold analyze_digital_constraints
  have h := digitalGo_partition data.raw_touch_data data.app_components 1
    { total_touches := data.raw_touch_data.length, valid_interaction := 0
      boundary_mismatch := 0, no_event_fired_error := 0
      out_of_bounds_touch := 0, directives := [] }
  obtain ⟨h1, h2⟩ := h
  constructor
  · rw [h1, h2]; simp
  · rw [h2]

lemma find?_first_of_prefix_neg {α : Type} (p : α → Bool) :
    ∀ (pre : List α) (c : α) (post : List α),
      (∀ a ∈ pre, p a = false) → p c = true →
      (pre ++ c :: post).find? p = some c := by
  intro pre
  induction pre with
  | nil =>
    intro c post _ hc
    simpa using List.find?_cons_of_pos _ hc
  | cons a pre ih =>
    intro c post hpre hc
    have ha : p a = false := hpre a (by simp)
    have : ¬ p a = true := by simp [ha]
    simpa [List.find?_cons_of_neg _ this] using ih c post
      (fun a' ha' => hpre a' (by simp [ha'])) hc

/-- C5: each touch is matched to the first component in list order whose
bounding box contains it, with inclusive comparisons on all four edges;
when no component contains the point the touch is counted out-of-bounds,
a dead-space diagnostic is emitted, and neither the boundary-mismatch nor
the missing-event counter moves. -/
theorem amanda_C5_first_match_and_out_of_bounds (w h : Int)
    (comps : List ApplicationComponent) (t : Touch) :
    (∀ c : ApplicationComponent, containsPoint c t.x t.y = true ↔
        (c.bounding_box.1 ≤ t.x ∧ t.x ≤ c.bounding_box.2.2.1 ∧
         c.bounding_box.2.1 ≤ t.y ∧ t.y ≤ c.bounding_box.2.2.2)) ∧
    (∀ pre c post, comps = pre ++ c :: post →
        (∀ c' ∈ pre, containsPoint c' t.x t.y = false) →
        containsPoint c t.x t.y = true →
        findTouchedComponent comps t.x t.y = some c) ∧
    ((∀ c ∈ comps, containsPoint c t.x t.y = false) →
      (analyze_digital_constraints ⟨w, h, comps, [t]⟩).out_of_bounds_touch = 1 ∧
      (analyze_digital_constraints ⟨w, h, comps, [t]⟩).valid_interaction = 0 ∧
      (analyze_digital_constraints ⟨w, h, comps, [t]⟩).boundary_mismatch = 0 ∧
      (analyze_digital_constraints ⟨w, h, comps, [t]⟩).no_event_fired_error = 0 ∧
      (analyze_digital_constraints ⟨w, h, comps, [t]⟩).directives =
        [.deadSpace 1 t.x t.y]) := by
  refine ⟨?_, ?_, ?_⟩
  · intro c
    simp [containsPoint]
  · intro pre c post hcomps hpre hc
    subst hcomps
    exact find?_first_of_prefix_neg _ pre c post hpre hc
  · intro hnone
    have hfind : findTouchedComponent comps t.x t.y = none := by
      unfold findTouchedComponent
      exact List.find?_eq_none.mpr (fun c hc => by simp [hnone c hc])
    rw [analyze_digital_singleton]
    unfold stepTouch
    rw [hfind]
    simp

/-- Witness for C5 at the demo components and the demo dead-space touch
`(300, 400)`. -/
theorem amanda_C5_witness :
    (analyze_digital_constraints
        ⟨500, 800, demoComponents, [⟨300, 400, true, some "None"⟩]⟩).out_of_bounds_touch = 1 ∧
    (analyze_digital_constraints
        ⟨500, 800, demoComponents, [⟨300, 400, true, some "None"⟩]⟩).valid_interaction = 0 ∧
    (analyze_digital_constraints
        ⟨500, 800, demoComponents, [⟨300, 400, true, some "None"⟩]⟩).boundary_mismatch = 0 ∧
    (analyze_digital_constraints
        ⟨500, 800, demoComponents, [⟨300, 400, true, some "None"⟩]⟩).no_event_fired_error = 0 ∧
    (analyze_digital_constraints
        ⟨500, 800, demoComponents, [⟨300, 400, true, some "None"⟩]⟩).directives =
      [.deadSpace 1 300 400] :=
  (amanda_C5_first_match_and_out_of_bounds 500 800 demoComponents
    ⟨300, 400, true, some "None"⟩).2.2 (by decide)

lemma mismatchFlag_eq_true_iff (detected : Option String) (matchedId : String) :
    mismatchFlag detected matchedId = true ↔
      ∃ s, detected = some s ∧ s ≠ "" ∧ s ≠ matchedId := by
  cases detected <;> simp [mismatchFlag]

/-- C6: a touch matched to a component with `event_fired = false` always
increments the missing-event counter and emits a diagnostic naming that
component's expected event type; the boundary-mismatch counter is
governed independently by the detected-identifier guard, so one touch can
increment both counters. -/
theorem amanda_C6_missing_event (w h : Int)
    (comps : List ApplicationComponent) (t : Touch)
    (c : ApplicationComponent)
    (hfind : findTouchedComponent comps t.x t.y = some c)
    (hev : t.event_fired = false) :
    (analyze_digital_constraints ⟨w, h, comps, [t]⟩).no_event_fired_error = 1 ∧
    DigitalDirective.noEventFired 1 c.component_id c.expected_event_type ∈
      (analyze_digital_constraints ⟨w, h, comps, [t]⟩).directives ∧
    (analyze_digital_constraints ⟨w, h, comps, [t]⟩).boundary_mismatch =
      (if mismatchFlag t.component_id_detected c.component_id then 1 else 0) := by
  rw [analyze_digital_singleton]
  unfold stepTouch
  rw [hfind]
  dsimp only
  cases hm : mismatchFlag t.component_id_detected c.component_id <;>
    simp [hev]

/-- Witness for C6: the demo touch `(100, 100)` with `event_fired = false`
and a wrong detected id lands in `Button_A`, incrementing both the
missing-event and the boundary-mismatch counters. -/
theorem amanda_C6_witness :
    (analyze_digital_constraints
        ⟨500, 800, demoComponents,
          [⟨100, 100, false, some "Slider_Volume"⟩]⟩).no_event_fired_error = 1 ∧
    DigitalDirective.noEventFired 1 "Button_A" "onClick" ∈
      (analyze_digital_constraints
        ⟨500, 800, demoComponents,
          [⟨100, 100, false, some "Slider_Volume"⟩]⟩).directives ∧
    (analyze_digital_constraints
        ⟨500, 800, demoComponents,
          [⟨100, 100, false, some "Slider_Volume"⟩]⟩).boundary_mismatch = 1 := by
  have h := amanda_C6_missing_event 500 800 demoComponents
    ⟨100, 100, false, some "Slider_Volume"⟩
    ⟨"Button_A", (50, 50, 250, 150), "onClick"⟩ (by decide) rfl
  refine ⟨h.1, h.2.1, ?_⟩
  rw [h.2.2]
  decide

/-- C9: a matched touch whose reported identifier is absent (`None`) or
the empty string never counts as a boundary mismatch and emits no
mismatch diagnostic; the mismatch counter is 1 exactly when a non-empty
reported identifier differs from the matched component's id. -/
theorem amanda_C9_falsy_detected_id (w h : Int)
    (comps : List ApplicationComponent) (t : Touch)
    (c : ApplicationComponent)
    (hfind : findTouchedComponent comps t.x t.y = some c) :
    ((analyze_digital_constraints ⟨w, h, comps, [t]⟩).boundary_mismatch = 1 ↔
      ∃ s, t.component_id_detected = some s ∧ s ≠ "" ∧ s ≠ c.component_id) ∧
    ((t.component_id_detected = none ∨ t.component_id_detected = some "") →
      (analyze_digital_constraints ⟨w, h, comps, [t]⟩).boundary_mismatch = 0 ∧
      ∀ (i : Nat) (x y : Int) (m d : String),
        DigitalDirective.boundaryMismatch i x y m d ∉
          (analyze_digital_constraints ⟨w, h, comps, [t]⟩).directives) := by
  have hmiff := mismatchFlag_eq_true_iff t.component_id_detected c.component_id
  rw [analyze_digital_singleton]
  unfold stepTouch
  rw [hfind]
  dsimp only
  cases hm : mismatchFlag t.component_id_detected c.component_id with
  | false =>
    rw [hm] at hmiff
    have hnot : ¬ ∃ s, t.component_id_detected = some s ∧ s ≠ "" ∧
        s ≠ c.component_id :=
      fun hPP => by simpa using hmiff.mpr hPP
    cases hev : t.event_fired <;>
      exact ⟨by simp [hnot], fun _ => ⟨by simp, by intro i x y m d; simp⟩⟩
  | true =>
    rw [hm] at hmiff
    have hP := hmiff.mp rfl
    have hcontra : ¬ (t.component_id_detected = none ∨
        t.component_id_detected = some "") := by
      obtain ⟨s, hs, hne, _⟩ := hP
      rintro (h0 | h0) <;> rw [h0] at hs
      · exact Option.noConfusion hs
      · exact hne (Option.some.inj hs).symm
    cases hev : t.event_fired <;>
      exact ⟨by simp [hP], fun hf => absurd hf hcontra⟩

/-- Witness for C9: a touch inside `Button_A` whose reported identifier
is the empty string is not counted as a boundary mismatch. -/
theorem amanda_C9_witness :
    (analyze_digital_constraints
        ⟨500, 800, demoComponents, [⟨150, 100, true, some ""⟩]⟩).boundary_mismatch = 0 ∧
    DigitalDirective.boundaryMismatch 1 150 100 "Button_A" "" ∉
      (analyze_digital_constraints
        ⟨500, 800, demoComponents, [⟨150, 100, true, some ""⟩]⟩).directives := by
  have h := (amanda_C9_falsy_detected_id 500 800 demoComponents
    ⟨150, 100, true, some ""⟩
    ⟨"Button_A", (50, 50, 250, 150), "onClick"⟩ (by decide)).2 (Or.inr rfl)
  exact ⟨h.1, h.2 1 150 100 "Button_A" ""⟩

/-! ### Lemmas about the physical evaluator -/

/-- C8: whenever the squared Euclidean distance from the user position to
the door is at least `1.5²`, the physical evaluator returns the default
no-interaction prediction and a null directive signal, whatever the
biometrics, blueprint, and velocity are. -/
theorem amanda_C8_no_imminent_interaction (data : PhysicalConstraintData)
    (hfar : DOOR_INTERACTION_RANGE_M ^ 2 ≤ distance_squared_to_door data) :
    analyze_physical_constraints data =
      { prediction := .noInteraction, directive_signal := none } := by
  unfold analyze_physical_constraints
  rw [if_neg (not_lt.mpr hfar)]

/-- Witness for C8 at the demo input moved far from the door: position
`(5, 5)`, door `(10, 10)`, squared distance `50 ≥ 2.25`. -/
theorem amanda_C8_witness :
    analyze_physical_constraints
        ⟨[("hr", 75)], (5, 5), [("door", 10, 10)], (10, 10), (1, 1)⟩ =
      { prediction := .noInteraction, directive_signal := none } :=
  amanda_C8_no_imminent_interaction
    ⟨[("hr", 75)], (5, 5), [("door", 10, 10)], (10, 10), (1, 1)⟩
    (by norm_num [DOOR_INTERACTION_RANGE_M, distance_squared_to_door])

/-! ### Lemmas about the legal evaluator's minimum-limit selection -/

lemma selectGo_some_spec (laws : List BaseConstitutionalLaw) :
    ∀ p : BaseConstitutionalLaw × Int,
      ∃ q, selectGo (some p) laws = some q ∧ q.2 ≤ p.2 ∧
        (q = p ∨ (q.1 ∈ laws ∧ q.1.speed_limit_mph = some q.2)) ∧
        ∀ k ∈ laws.filterMap (fun l => l.speed_limit_mph), q.2 ≤ k := by
  induction laws with
  | nil =>
    intro p
    exact ⟨p, rfl, le_refl _, Or.inl rfl, by simp⟩
  | cons law rest ih =>
    intro p
    cases hl : law.speed_limit_mph with
    | none =>
      obtain ⟨q, hq, hle, hor, hlb⟩ := ih p
      refine ⟨q, ?_, hle, ?_, ?_⟩
      · simpa [selectGo, selectStep, hl] using hq
      · rcases hor with hqp | ⟨hmem, hq2⟩
        · exact Or.inl hqp
        · exact Or.inr ⟨List.mem_cons_of_mem _ hmem, hq2⟩
      · intro k hk
        exact hlb k (by simpa [List.filterMap_cons, hl] using hk)
    | some l =>
      by_cases hlt : l < p.2
      · obtain ⟨q, hq, hle, hor, hlb⟩ := ih (law, l)
        refine ⟨q, ?_, le_trans hle (le_of_lt hlt), ?_, ?_⟩
        · simpa [selectGo, selectStep, hl, hlt] using hq
        · rcases hor with hqp | ⟨hmem, hq2⟩
          · subst hqp
            exact Or.inr ⟨List.mem_cons_self _ _, hl⟩
          · exact Or.inr ⟨List.mem_cons_of_mem _ hmem, hq2⟩
        · intro k hk
          rw [List.filterMap_cons, hl] at hk
          rcases List.mem_cons.mp hk with hk | hk
          · subst hk; exact hle
          · exact hlb k hk
      · obtain ⟨q, hq, hle, hor, hlb⟩ := ih p
        refine ⟨q, ?_, hle, ?_, ?_⟩
        · simpa [selectGo, selectStep, hl, hlt] using hq
        · rcases hor with hqp | ⟨hmem, hq2⟩
          · exact Or.inl hqp
          · exact Or.inr ⟨List.mem_cons_of_mem _ hmem, hq2⟩
        · intro k hk
          rw [List.filterMap_cons, hl] at hk
          rcases List.mem_cons.mp hk with hk | hk
          · subst hk; exact le_trans hle (not_lt.mp hlt)
          · exact hlb k hk

lemma selectMostRestrictive_spec (laws : List BaseConstitutionalLaw) :
    (laws.filterMap (fun l => l.speed_limit_mph) = [] ∧
      selectMostRestrictive laws = none) ∨
    ∃ q, selectMostRestrictive laws = some q ∧ q.1 ∈ laws ∧
      q.1.speed_limit_mph = some q.2 ∧
      ∀ k ∈ laws.filterMap (fun l => l.speed_limit_mph), q.2 ≤ k := by
  induction laws with
  | nil => exact Or.inl ⟨rfl, rfl⟩
  | cons law rest ih =>
    cases hl : law.speed_limit_mph with
    | none =>
      rcases ih with ⟨hemp, hnone⟩ | ⟨q, hq, hmem, hq2, hlb⟩
      · refine Or.inl ⟨?_, ?_⟩
        · simp [List.filterMap_cons, hl, hemp]
        · simpa [selectMostRestrictive, selectGo, selectStep, hl] using hnone
      · refine Or.inr ⟨q, ?_, List.mem_cons_of_mem _ hmem, hq2, ?_⟩
        · simpa [selectMostRestrictive, selectGo, selectStep, hl] using hq
        · intro k hk
          exact hlb k (by simpa [List.filterMap_cons, hl] using hk)
    | some l =>
      obtain ⟨q, hq, hle, hor, hlb⟩ := selectGo_some_spec rest (law, l)
      refine Or.inr ⟨q, ?_, ?_, ?_, ?_⟩
      · simpa [selectMostRestrictive, selectGo, selectStep, hl] using hq
      · rcases hor with hqp | ⟨hmem, _⟩
        · subst hqp; exact List.mem_cons_self _ _
        · exact List.mem_cons_of_mem _ hmem
      · rcases hor with hqp | ⟨_, hq2⟩
        · subst hqp; exact hl
        · exact hq2
      · intro k hk
        rw [List.filterMap_cons, hl] at hk
        rcases List.mem_cons.mp hk with hk | hk
        · subst hk; exact hle
        · exact hlb k hk

lemma analyze_const_required_limit (data : ConstitutionalConstraintData) :
    (analyze_constitutional_constraints data).required_limit_mph =
      (selectMostRestrictive data.applicable_laws).map (fun q => q.2) := by
  unfold analyze_constitutional_constraints
  cases selectMostRestrictive data.applicable_laws with
  | none => rfl
  | some q =>
    obtain ⟨law, lim⟩ := q
    dsimp only
    split_ifs <;> rfl

/-- C3: whenever some candidate law carries a non-null limit, the legal
evaluator's applied limit is the minimum of the non-null limits — a value
independent of the order of the laws and of their `priority_level`s
(which the report characterisation below never mentions): any law list
whose multiset of non-null limits is the same yields the same applied
limit. -/
theorem amanda_C3_min_limit_selected (data : ConstitutionalConstraintData)
    (hne : data.applicable_laws.filterMap (fun l => l.speed_limit_mph) ≠ []) :
    ∃ m, (analyze_constitutional_constraints data).required_limit_mph = some m ∧
      m ∈ data.applicable_laws.filterMap (fun l => l.speed_limit_mph) ∧
      (∀ k ∈ data.applicable_laws.filterMap (fun l => l.speed_limit_mph), m ≤ k) ∧
      ∀ laws2 : List BaseConstitutionalLaw,
        List.Perm (laws2.filterMap (fun l => l.speed_limit_mph))
          (data.applicable_laws.filterMap (fun l => l.speed_limit_mph)) →
        (analyze_constitutional_constraints
          { data with applicable_laws := laws2 }).required_limit_mph = some m := by
  rcases selectMostRestrictive_spec data.applicable_laws with
    ⟨hemp, _⟩ | ⟨q, hq, hmem, hqlim, hlb⟩
  · exact absurd hemp hne
  · have hml : q.2 ∈ data.applicable_laws.filterMap (fun l => l.speed_limit_mph) :=
      List.mem_filterMap.mpr ⟨q.1, hmem, hqlim⟩
    refine ⟨q.2, ?_, hml, hlb, ?_⟩
    · rw [analyze_const_required_limit, hq]; rfl
    · intro laws2 hperm
      rcases selectMostRestrictive_spec laws2 with
        ⟨hemp2, _⟩ | ⟨q2, hq', hmem2, hqlim2, hlb2⟩
      · rw [hemp2] at hperm
        exact absurd (List.Perm.nil_eq hperm).symm hne
      · have hm2 : q2.2 ∈ laws2.filterMap (fun l => l.speed_limit_mph) :=
          List.mem_filterMap.mpr ⟨q2.1, hmem2, hqlim2⟩
        have h1 : q.2 ≤ q2.2 := hlb _ (hperm.mem_iff.mp hm2)
        have h2 : q2.2 ≤ q.2 := hlb2 _ (hperm.mem_iff.mpr hml)
        have heq : q2.2 = q.2 := le_antisymm h2 h1
        have : ({ data with applicable_laws := laws2 } :
            ConstitutionalConstraintData).applicable_laws = laws2 := rfl
        rw [analyze_const_required_limit, this, hq']
        simp [heq]

/-- Laws with limits 70, 20, 30 used to witness C3. -/
def c3Laws : List BaseConstitutionalLaw :=
  [⟨"US", "federal default", 10, some 70, none⟩,
   ⟨"TX", "school zone", 5, some 20, none⟩,
   ⟨"TX", "municipal", 7, some 30, none⟩]

/-- Witness for C3: with limits `{70, 20, 30}` the applied limit is 20. -/
theorem amanda_C3_witness :
    (analyze_constitutional_constraints
      ⟨[], c3Laws, 50, 100, 4⟩).required_limit_mph = some 20 := by
  obtain ⟨m, hreq, hmem, hlb, _⟩ :=
    amanda_C3_min_limit_selected ⟨[], c3Laws, 50, 100, 4⟩ (by decide)
  have h20 : m ≤ 20 := hlb 20 (by decide)
  have hm : m = 70 ∨ m = 20 ∨ m = 30 := by
    simpa [c3Laws, List.filterMap_cons] using hmem
  have : m = 20 := by rcases hm with h | h | h <;> omega
  rw [← this]
  exact hreq

/-- C7: when a limit is selected and current speed strictly exceeds it,
the report flags currently-speeding and warning-required, the directives
are exactly the exceeding-limit directive naming the limit and its source
law, and in particular no pre-emptive slow-down directive is emitted. -/
theorem amanda_C7_currently_speeding (data : ConstitutionalConstraintData)
    (law : BaseConstitutionalLaw) (lim : Int)
    (hsel : selectMostRestrictive data.applicable_laws = some (law, lim))
    (hover : data.vehicle_speed_data_mph > (lim : ℚ)) :
    (analyze_constitutional_constraints data).is_currently_speeding = true ∧
    (analyze_constitutional_constraints data).warning_required = true ∧
    (analyze_constitutional_constraints data).required_limit_mph = some lim ∧
    (analyze_constitutional_constraints data).applied_law =
      some (law.source_constitution, law.law_description) ∧
    (analyze_constitutional_constraints data).directives =
      [.exceedingLimit lim law.source_constitution] := by
  unfold analyze_constitutional_constraints
  rw [hsel]
  dsimp only
  rw [if_pos hover]
  exact ⟨rfl, rfl, rfl, rfl, rfl⟩

/-- Witness for C7 at the demo input: speed 35 against the school-zone
limit 20. -/
theorem amanda_C7_witness :
    (analyze_constitutional_constraints
      ⟨[("zone_id", "TX-AUSTIN-SCHOOL-45")], demoLaws, 35, 100, 4⟩).is_currently_speeding = true ∧
    (analyze_constitutional_constraints
      ⟨[("zone_id", "TX-AUSTIN-SCHOOL-45")], demoLaws, 35, 100, 4⟩).warning_required = true ∧
    (analyze_constitutional_constraints
      ⟨[("zone_id", "TX-AUSTIN-SCHOOL-45")], demoLaws, 35, 100, 4⟩).required_limit_mph = some 20 ∧
    (analyze_constitutional_constraints
      ⟨[("zone_id", "TX-AUSTIN-SCHOOL-45")], demoLaws, 35, 100, 4⟩).applied_law =
      some ("Texas Constitution (via TX Transportation Code)",
        "Municipal Speed Zone Ordinance (School Zone)") ∧
    (analyze_constitutional_constraints
      ⟨[("zone_id", "TX-AUSTIN-SCHOOL-45")], demoLaws, 35, 100, 4⟩).directives =
      [.exceedingLimit 20 "Texas Constitution (via TX Transportation Code)"] :=
  amanda_C7_currently_speeding
    ⟨[("zone_id", "TX-AUSTIN-SCHOOL-45")], demoLaws, 35, 100, 4⟩
    ⟨"Texas Constitution (via TX Transportation Code)",
      "Municipal Speed Zone Ordinance (School Zone)", 5, some 20,
      some "School Zone"⟩ 20 (by decide) (by norm_num)

/-- C1 counterexample: in the pre-emptive branch (speed 19.5 mph against
limit 20 mph, so the converted speed lies inside the 95% band and does
not exceed the limit) with the strictly positive deceleration magnitude
4.0, the stopping distance computed by the source formula
`(limit² − current²) / (2 × −deceleration)` is strictly negative, not
positive. -/
theorem amanda_C1_counterexample :
    0 < (4 : ℚ) ∧
    ((39 / 2 : ℚ) * MPH_TO_MPS) > ((20 : ℚ) * MPH_TO_MPS) * (95 / 100) ∧
    ¬ ((39 / 2 : ℚ) > (20 : ℚ)) ∧
    distance_to_slow_safely ((20 : ℚ) * MPH_TO_MPS)
      ((39 / 2 : ℚ) * MPH_TO_MPS) 4 < 0 := by
  refine ⟨by norm_num, by norm_num [MPH_TO_MPS], by norm_num, ?_⟩
  norm_num [MPH_TO_MPS, distance_to_slow_safely]

/-- C1 (amended): in the pre-emptive branch, for every strictly positive
deceleration magnitude the stopping distance computed by the formula
`(limit² − current²) / (2 × −deceleration)` is non-positive, and strictly
negative whenever current speed is strictly below the limit. -/
theorem amanda_C1_stopping_distance_nonpos
    (limit_mps current_speed_mps decel_mps2 : ℚ)
    (hdec : 0 < decel_mps2)
    (hband : limit_mps * (95 / 100) < current_speed_mps)
    (hle : current_speed_mps ≤ limit_mps) :
    distance_to_slow_safely limit_mps current_speed_mps decel_mps2 ≤ 0 ∧
    (current_speed_mps < limit_mps →
      distance_to_slow_safely limit_mps current_speed_mps decel_mps2 < 0) := by
  have hlim : 0 < limit_mps := by nlinarith
  have hcur : 0 < current_speed_mps := by nlinarith
  have hnum : 0 ≤ limit_mps ^ 2 - current_speed_mps ^ 2 := by nlinarith
  have hden : 2 * -decel_mps2 < 0 := by linarith
  unfold distance_to_slow_safely
  constructor
  · exact div_nonpos_of_nonneg_of_nonpos hnum (le_of_lt hden)
  · intro hlt
    have hnum' : 0 < limit_mps ^ 2 - current_speed_mps ^ 2 := by nlinarith
    exact div_neg_of_pos_of_neg hnum' hden

/-- Witness for C1's amended theorem at limit 20 mph, speed 19.5 mph,
deceleration 4.0. -/
theorem amanda_C1_witness :
    distance_to_slow_safely ((20 : ℚ) * MPH_TO_MPS)
      ((39 / 2 : ℚ) * MPH_TO_MPS) 4 ≤ 0 ∧
    distance_to_slow_safely ((20 : ℚ) * MPH_TO_MPS)
      ((39 / 2 : ℚ) * MPH_TO_MPS) 4 < 0 := by
  have h := amanda_C1_stopping_distance_nonpos ((20 : ℚ) * MPH_TO_MPS)
    ((39 / 2 : ℚ) * MPH_TO_MPS) 4 (by norm_num)
    (by norm_num [MPH_TO_MPS]) (by norm_num [MPH_TO_MPS])
  exact ⟨h.1, h.2 (by norm_num [MPH_TO_MPS])⟩

/-!
### IEEE-754 trace of the pre-emptive band test at the 95% boundary

The band test of `analyze_constitutional_constraints`,
`current_speed_mps > limit_mps * 0.95`, is evaluated by the source in
double precision. At speed 19 mph against limit 20 mph the two sides are
exactly equal in real arithmetic, so the outcome is decided by rounding;
the values below trace that computation exactly, as dyadic rationals.
-/

/-- `x` is the IEEE-754 binary64 round-to-nearest-even result for the
real value `q`, for a value in the binade whose unit in the last place
is `ulp`: `x` is an integer multiple `m · ulp`, `q` lies in
`[2⁵² · ulp, 2⁵³ · ulp)` (there consecutive doubles are exactly `ulp`
apart), `x` is within half an ulp of `q`, and an exact tie is broken to
an even significand `m`. -/
def IsDoubleRounding (ulp q x : ℚ) : Prop :=
  ∃ m : ℤ, x = (m : ℚ) * ulp ∧
    2 ^ 52 * ulp ≤ q ∧ q < 2 ^ 53 * ulp ∧
    ((q - x < ulp / 2 ∧ x - q < ulp / 2) ∨
      ((q - x = ulp / 2 ∨ x - q = ulp / 2) ∧ m % 2 = 0))

/-- The double stored for the source literal `0.44704` (`MPH_TO_MPS` at
run time): `8053156709678826 · 2⁻⁵⁴`. -/
def mphToMps_double : ℚ := 8053156709678826 / 2 ^ 54

/-- The double stored for the literal `0.95` of the band test:
`8556839292003942 · 2⁻⁵³`. -/
def point95_double : ℚ := 8556839292003942 / 2 ^ 53

/-- `current_speed_mps` as the program computes it at 19 mph: the double
product `19 * MPH_TO_MPS`, namely `4781561796371803 · 2⁻⁴⁹`. -/
def speed19_mps_double : ℚ := 4781561796371803 / 2 ^ 49

/-- `limit_mps` as the program computes it at limit 20 mph: the double
product `20 * MPH_TO_MPS`, namely `5033222943549266 · 2⁻⁴⁹`. -/
def limit20_mps_double : ℚ := 5033222943549266 / 2 ^ 49

/-- The band threshold `limit_mps * 0.95` as the program computes it at
limit 20 mph: `4781561796371802 · 2⁻⁴⁹`. -/
def band20_threshold_double : ℚ := 4781561796371802 / 2 ^ 49

/-- The full double-precision trace of the band test at speed 19 mph,
limit 20 mph: every stored constant and computed product certified as a
round-to-nearest-even result, ending in the comparison of the source's
pre-emptive guard, which is strictly true. -/
lemma doubleTrace_speed19_limit20 :
    IsDoubleRounding (1 / 2 ^ 54) (44704 / 100000) mphToMps_double ∧
    IsDoubleRounding (1 / 2 ^ 53) (95 / 100) point95_double ∧
    IsDoubleRounding (1 / 2 ^ 49) (19 * mphToMps_double) speed19_mps_double ∧
    IsDoubleRounding (1 / 2 ^ 49) (20 * mphToMps_double) limit20_mps_double ∧
    IsDoubleRounding (1 / 2 ^ 49) (limit20_mps_double * point95_double)
      band20_threshold_double ∧
    speed19_mps_double > band20_threshold_double := by
  refine ⟨⟨8053156709678826, ?_, ?_, ?_, Or.inl ⟨?_, ?_⟩⟩,
    ⟨8556839292003942, ?_, ?_, ?_, Or.inl ⟨?_, ?_⟩⟩,
    ⟨4781561796371803, ?_, ?_, ?_, Or.inl ⟨?_, ?_⟩⟩,
    ⟨5033222943549266, ?_, ?_, ?_, Or.inl ⟨?_, ?_⟩⟩,
    ⟨4781561796371802, ?_, ?_, ?_, Or.inl ⟨?_, ?_⟩⟩, ?_⟩ <;>
  norm_num [mphToMps_double, point95_double, speed19_mps_double,
    limit20_mps_double, band20_threshold_double]

/-- C2 counterexample: the claim asserts that with speed=19, limit=20,
deceleration=4.0 the pre-emptive branch does not trigger. In exact real
arithmetic `19 · 0.44704` equals exactly 95% of `20 · 0.44704`, but the
source evaluates the guard `current_speed_mps > limit_mps * 0.95` on
IEEE-754 doubles: tracing every rounding step exactly (each certified as
the round-to-nearest-even result), the stored speed rounds up to
`4781561796371803 · 2⁻⁴⁹` while the threshold rounds down to
`4781561796371802 · 2⁻⁴⁹`, so the strict comparison is true, the
speeding branch is not taken (`19 > 20` is false), and the program does
enter the pre-emptive branch — contradicting the claim's concrete
instance (its "inclusive at 95%" reading is moot at this input, since
the program compares rounded values, not the real 95% threshold). -/
theorem amanda_C2_counterexample :
    IsDoubleRounding (1 / 2 ^ 54) (44704 / 100000) mphToMps_double ∧
    IsDoubleRounding (1 / 2 ^ 53) (95 / 100) point95_double ∧
    IsDoubleRounding (1 / 2 ^ 49) (19 * mphToMps_double) speed19_mps_double ∧
    IsDoubleRounding (1 / 2 ^ 49) (20 * mphToMps_double) limit20_mps_double ∧
    IsDoubleRounding (1 / 2 ^ 49) (limit20_mps_double * point95_double)
      band20_threshold_double ∧
    ¬ ((19 : ℚ) > 20) ∧
    (19 : ℚ) * (44704 / 100000) = ((20 : ℚ) * (44704 / 100000)) * (95 / 100) ∧
    speed19_mps_double > band20_threshold_double := by
  obtain ⟨h1, h2, h3, h4, h5, h6⟩ := doubleTrace_speed19_limit20
  exact ⟨h1, h2, h3, h4, h5, by norm_num, by norm_num, h6⟩

/-- C2 (amended): whenever a limit is selected and current speed does not
exceed it, the pre-emptive warning fires exactly when the converted
current speed strictly exceeds 95% of the converted limit and the
computed stopping distance is at least the distance to the zone — a
strict comparison, not an inclusive one; at the exact 95% boundary the
outcome is decided by the program's double values, and with speed=19,
limit=20, deceleration=4.0 the rounded comparison is strictly true, so
the pre-emptive branch does trigger there. -/
theorem amanda_C2_preemptive_band_strict :
    (∀ (data : ConstitutionalConstraintData) (law : BaseConstitutionalLaw)
        (lim : Int),
      selectMostRestrictive data.applicable_laws = some (law, lim) →
      ¬ data.vehicle_speed_data_mph > (lim : ℚ) →
      ((analyze_constitutional_constraints data).warning_required = true ↔
        (data.vehicle_speed_data_mph * MPH_TO_MPS >
            ((lim : ℚ) * MPH_TO_MPS) * (95 / 100) ∧
          distance_to_slow_safely ((lim : ℚ) * MPH_TO_MPS)
              (data.vehicle_speed_data_mph * MPH_TO_MPS)
              data.max_safe_decel_mps2 ≥
            data.vehicle_proximity_to_zone_m))) ∧
    (IsDoubleRounding (1 / 2 ^ 54) (44704 / 100000) mphToMps_double ∧
      IsDoubleRounding (1 / 2 ^ 53) (95 / 100) point95_double ∧
      IsDoubleRounding (1 / 2 ^ 49) (19 * mphToMps_double) speed19_mps_double ∧
      IsDoubleRounding (1 / 2 ^ 49) (20 * mphToMps_double) limit20_mps_double ∧
      IsDoubleRounding (1 / 2 ^ 49) (limit20_mps_double * point95_double)
        band20_threshold_double ∧
      speed19_mps_double > band20_threshold_double) := by
  refine ⟨?_, doubleTrace_speed19_limit20⟩
  intro data law lim hsel hnotover
  unfold analyze_constitutional_constraints
  rw [hsel]
  dsimp only
  rw [if_neg hnotover]
  by_cases hband : data.vehicle_speed_data_mph * MPH_TO_MPS >
      ((lim : ℚ) * MPH_TO_MPS) * (95 / 100)
  · rw [if_pos hband]
    by_cases hd : distance_to_slow_safely ((lim : ℚ) * MPH_TO_MPS)
        (data.vehicle_speed_data_mph * MPH_TO_MPS) data.max_safe_decel_mps2 ≥
        data.vehicle_proximity_to_zone_m
    · rw [if_pos hd]
      simp [hband, hd]
    · rw [if_neg hd]
      simp [hband, hd]
  · rw [if_neg hband]
    simp [hband]

/-- Witness for C2's amended theorem: just inside the strict band
(speed 19.5 mph, limit 20 mph, deceleration 4.0, zone distance −1000 m)
the pre-emptive warning fires. -/
theorem amanda_C2_witness :
    (analyze_constitutional_constraints
      ⟨[], [⟨"TX", "school zone", 5, some 20, none⟩], 39 / 2, -1000, 4⟩).warning_required
      = true := by
  have h := amanda_C2_preemptive_band_strict.1
    ⟨[], [⟨"TX", "school zone", 5, some 20, none⟩], 39 / 2, -1000, 4⟩
    ⟨"TX", "school zone", 5, some 20, none⟩ 20 rfl (by norm_num)
  exact h.mpr ⟨by norm_num [MPH_TO_MPS],
    by norm_num [MPH_TO_MPS, distance_to_slow_safely]⟩

/-! ### Observational equivalence for fields the evaluators never read -/

/-- Agreement on the three law fields the legal evaluator reads
(`source_constitution`, `law_description`, `speed_limit_mph`); two laws
related by this may differ arbitrarily in `priority_level` and
`zone_type`. -/
def LawObsEq (l1 l2 : BaseConstitutionalLaw) : Prop :=
  l1.source_constitution = l2.source_constitution ∧
  l1.law_description = l2.law_description ∧
  l1.speed_limit_mph = l2.speed_limit_mph

/-- Lifts `LawObsEq` to the selection accumulator. -/
def SelObsEq :
    Option (BaseConstitutionalLaw × Int) →
      Option (BaseConstitutionalLaw × Int) → Prop
  | none, none => True
  | some (l1, m1), some (l2, m2) => LawObsEq l1 l2 ∧ m1 = m2
  | _, _ => False

lemma selectStep_obs {a1 a2 : Option (BaseConstitutionalLaw × Int)}
    {law1 law2 : BaseConstitutionalLaw}
    (ha : SelObsEq a1 a2) (hlaw : LawObsEq law1 law2) :
    SelObsEq (selectStep a1 law1) (selectStep a2 law2) := by
  obtain ⟨hs, hd, hlim⟩ := hlaw
  unfold selectStep
  rw [← hlim]
  cases hsp : law1.speed_limit_mph with
  | none => exact ha
  | some l =>
    cases a1 with
    | none =>
      cases a2 with
      | none => exact ⟨⟨hs, hd, hlim⟩, rfl⟩
      | some p2 => exact ha.elim
    | some p1 =>
      cases a2 with
      | none => exact ha.elim
      | some p2 =>
        obtain ⟨l1', m1⟩ := p1
        obtain ⟨l2', m2⟩ := p2
        obtain ⟨hl', hm⟩ := ha
        subst hm
        dsimp only
        by_cases hlt : l < m1
        · rw [if_pos hlt, if_pos hlt]
          exact ⟨⟨hs, hd, hlim⟩, rfl⟩
        · rw [if_neg hlt, if_neg hlt]
          exact ⟨hl', rfl⟩

lemma selectGo_obs (laws1 laws2 : List BaseConstitutionalLaw)
    (hf : List.Forall₂ LawObsEq laws1 laws2) :
    ∀ a1 a2, SelObsEq a1 a2 →
      SelObsEq (selectGo a1 laws1) (selectGo a2 laws2) := by
  induction hf with
  | nil => exact fun a1 a2 ha => ha
  | cons hlaw _ ih =>
    intro a1 a2 ha
    exact ih _ _ (selectStep_obs ha hlaw)

/-- C10: each evaluator's output is independent of the input fields it
never reads — the digital report depends only on the components and the
touch sequence (not on the screen dimensions), the physical report only
on position, door and velocity (not on biometrics or blueprint), and the
legal report only on speed, proximity, deceleration, and the laws' read
fields (not on `geospatial_data` or the laws' `priority_level` /
`zone_type`). -/
theorem amanda_C10_unread_field_independence :
    (∀ d1 d2 : DigitalConstraintData,
      d1.app_components = d2.app_components →
      d1.raw_touch_data = d2.raw_touch_data →
      analyze_digital_constraints d1 = analyze_digital_constraints d2) ∧
    (∀ p1 p2 : PhysicalConstraintData,
      p1.user_position_m = p2.user_position_m →
      p1.door_coords_m = p2.door_coords_m →
      p1.user_velocity_mps = p2.user_velocity_mps →
      analyze_physical_constraints p1 = analyze_physical_constraints p2) ∧
    (∀ c1 c2 : ConstitutionalConstraintData,
      List.Forall₂ LawObsEq c1.applicable_laws c2.applicable_laws →
      c1.vehicle_speed_data_mph = c2.vehicle_speed_data_mph →
      c1.vehicle_proximity_to_zone_m = c2.vehicle_proximity_to_zone_m →
      c1.max_safe_decel_mps2 = c2.max_safe_decel_mps2 →
      analyze_constitutional_constraints c1 =
        analyze_constitutional_constraints c2) := by
  refine ⟨?_, ?_, ?_⟩
  · intro d1 d2 hcomp htouch
    unfold analyze_digital_constraints
    rw [hcomp, htouch]
  · intro p1 p2 hpos hdoor hvel
    unfold analyze_physical_constraints distance_squared_to_door
    rw [hpos, hdoor, hvel]
  · intro c1 c2 hlaws hspeed hprox hdec
    have hsel : SelObsEq (selectMostRestrictive c1.applicable_laws)
        (selectMostRestrictive c2.applicable_laws) :=
      selectGo_obs _ _ hlaws none none trivial
    unfold analyze_constitutional_constraints
    cases h1 : selectMostRestrictive c1.applicable_laws with
    | none =>
      cases h2 : selectMostRestrictive c2.applicable_laws with
      | none =>
        dsimp only
        rw [hspeed]
      | some q2 =>
        rw [h1, h2] at hsel
        exact hsel.elim
    | some q1 =>
      cases h2 : selectMostRestrictive c2.applicable_laws with
      | none =>
        rw [h1, h2] at hsel
        exact hsel.elim
      | some q2 =>
        rw [h1, h2] at hsel
        obtain ⟨l1, m1⟩ := q1
        obtain ⟨l2, m2⟩ := q2
        obtain ⟨⟨hs, hd, _⟩, hm⟩ := hsel
        subst hm
        dsimp only
        rw [hspeed, hprox, hdec, hs, hd]

/-- The demo laws with their unread `priority_level` and `zone_type`
fields altered. -/
def demoLawsReprioritized : List BaseConstitutionalLaw :=
  [⟨"U.S. Constitution (via Federal Statute)",
    "Interstate Commerce Speed Regulation (Default)", 1, some 70, none⟩,
   ⟨"Texas Constitution (via TX Transportation Code)",
    "Municipal Speed Zone Ordinance (School Zone)", 99, some 20, none⟩]

/-- Witness for C10 at concrete input pairs differing only in unread
fields: screen size (digital), biometrics and blueprint (physical),
geospatial data and law priorities/zone types (legal). -/
theorem amanda_C10_witness :
    analyze_digital_constraints
        ⟨500, 800, demoComponents, [⟨150, 100, true, some "Button_A"⟩]⟩ =
      analyze_digital_constraints
        ⟨9999, 1, demoComponents, [⟨150, 100, true, some "Button_A"⟩]⟩ ∧
    analyze_physical_constraints
        ⟨[("hr", 75)], (5, 5), [("door", 7, 7)], (7, 7), (1, 1)⟩ =
      analyze_physical_constraints
        ⟨[("hr", 120)], (5, 5), [], (7, 7), (1, 1)⟩ ∧
    analyze_constitutional_constraints
        ⟨[("zone_id", "TX-AUSTIN-SCHOOL-45")], demoLaws, 35, 100, 4⟩ =
      analyze_constitutional_constraints
        ⟨[], demoLawsReprioritized, 35, 100, 4⟩ :=
  ⟨amanda_C10_unread_field_independence.1 _ _ rfl rfl,
   amanda_C10_unread_field_independence.2.1 _ _ rfl rfl rfl,
   amanda_C10_unread_field_independence.2.2 _ _
     (List.Forall₂.cons ⟨rfl, rfl, rfl⟩
       (List.Forall₂.cons ⟨rfl, rfl, rfl⟩ List.Forall₂.nil)) rfl rfl rfl⟩
